import Mathlib

/-!
Shallow embedding of src/pong/src/main.rs (a Bevy pong game).

Scalars: the game's f32 arithmetic is modeled exactly over ℚ; the one
computation that leaves ℚ — normalizing the random (±1, ±1) spawn direction,
which divides by √2 — is modeled over ℝ by vec2_normalize / ball_spawn_velocity.

Randomness (rand::thread_rng inside coin_flip) is modeled by explicit inputs:
coin_flip takes the sampled u32 value; the frame function takes the velocities
the RNG would hand to the respawned / reset ball as oracle inputs.

Scheduling, per main(): player_movement_control, computer_movement_control and
ball_collision run before velocity_movement; (velocity_movement, despawn_ball,
award_points) are chained; respawn_ball runs after despawn_ball; reset_on_r is
unordered against the rest (modeled first in the frame; a no-op unless R is
pressed). Entity despawn/spawn commands are deferred to the end of the Update
schedule, which the frame function reflects by rebuilding the ball list last.
Collision detection itself (bevy's collide_aabb::collide — external library
code, not part of this repository) enters as an oracle list of per-collider
detection outcomes.
-/

/-- 2D vector, standing in for bevy's Vec2 (f32 pair) with exact rationals. -/
structure Vec2 where
  x : ℚ
  y : ℚ
deriving DecidableEq, Repr

/-- const PLAYER_START_POSITION: f32 = 1920. / 4. + 1920. / 5.;  (= 864) -/
def PLAYER_START_POSITION : ℚ := 1920 / 4 + 1920 / 5

/-- const PLAYER_SPEED: f32 = 550.; -/
def PLAYER_SPEED : ℚ := 550

/-- const COMPUTER_SPEED: f32 = 500.; -/
def COMPUTER_SPEED : ℚ := 500

/-- const BALL_SPEED: f32 = 700.; -/
def BALL_SPEED : ℚ := 700

/-- const WALL_HEIGHT: f32 = 1080. / 2.; -/
def WALL_HEIGHT : ℚ := 1080 / 2

/-- Resource Scoreboard { player: u32, computer: u32 }.  The counters are
modeled as ℕ: the only mutations are `+= 1` (and reset to 0), and under the
default cargo (debug) profile u32 addition panics rather than wraps at
4294967295, so completed frames never observe a wrapped counter. -/
structure Scoreboard where
  player : ℕ
  computer : ℕ
deriving DecidableEq, Repr

/-- Event BallDestroyed { player_scored: bool }. -/
structure BallDestroyed where
  player_scored : Bool
deriving DecidableEq, Repr

/-- The live ball's kinematic state: its Transform translation (x, y) and its
Velocity component. -/
structure BallState where
  pos : Vec2
  vel : Vec2
deriving DecidableEq, Repr

/-- fn coin_flip() -> f32: samples a u32, takes it mod 2, maps 0 to -1.0 and
1 to 1.0.  The sampled u32 is an explicit input here. -/
def coin_flip (n : ℕ) : ℚ := if n % 2 = 0 then -1 else 1

/-- fn player_movement_control: direction starts at Vec2::ZERO; W sets
direction.y = 1.0, else S sets direction.y = -1.0; the paddle velocity is
direction * PLAYER_SPEED.  Inputs are the pressed states of W and S. -/
def player_movement_control (w s : Bool) : Vec2 :=
  let direction : Vec2 := if w then ⟨0, 1⟩ else if s then ⟨0, -1⟩ else ⟨0, 0⟩
  ⟨direction.x * PLAYER_SPEED, direction.y * PLAYER_SPEED⟩

/-- Loop body of fn computer_movement_control for one computer paddle, given
the ball translation, the paddle translation, and the paddle's current
velocity; only velocity.y is ever written.  The Rust dead-band test is
(50.0..-50.0).contains(&y), i.e. 50 ≤ y ∧ y < -50 under
Range::contains — faithfully reproduced here (it is an empty range). -/
def computer_movement_control (ball comp v : Vec2) : Vec2 :=
  if ball.x > 0 then
    if 50 ≤ comp.y ∧ comp.y < -50 then ⟨v.x, 0⟩
    else if 0 > comp.y then ⟨v.x, COMPUTER_SPEED / 2⟩
    else if 0 < comp.y then ⟨v.x, -COMPUTER_SPEED / 2⟩
    else v
  else
    let speed := if ball.x > -(1920 * (275 / 1000)) then COMPUTER_SPEED * (7 / 10) else COMPUTER_SPEED
    if ball.y < comp.y then ⟨v.x, -speed⟩
    else if ball.y > comp.y then ⟨v.x, speed⟩
    else v

/-- fn computer_movement_control as a system: ball.get_single() succeeds only
when exactly one Ball entity matches; otherwise the system returns early and
the computer velocity is untouched. -/
def computer_movement_system (balls : List BallState) (comp v : Vec2) : Vec2 :=
  match balls with
  | [b] => computer_movement_control b.pos comp v
  | _ => v

/-- bevy::sprite::collide_aabb::Collision (external library type). -/
inductive Collision
  | Left
  | Right
  | Top
  | Bottom
  | Inside
deriving DecidableEq, Repr

/-- The per-collider response in fn ball_collision, acting on the ball's
(translation, velocity) pair: none models the `continue` when collide returns
None; Left/Right negate velocity.x; Top/Bottom negate velocity.y; Inside does
nothing.  The translation is never written. -/
def ball_collision_response (p v : Vec2) : Option Collision → Vec2 × Vec2
  | none => (p, v)
  | some Collision.Left => (p, ⟨v.x * -1, v.y⟩)
  | some Collision.Right => (p, ⟨v.x * -1, v.y⟩)
  | some Collision.Top => (p, ⟨v.x, v.y * -1⟩)
  | some Collision.Bottom => (p, ⟨v.x, v.y * -1⟩)
  | some Collision.Inside => (p, v)

/-- fn ball_collision as a system: ball.get_single_mut() succeeds only for
exactly one Ball entity, otherwise the system returns early (no velocity
write, no BallCollided event).  The detection outcome of the external
collide() for each other collider enters as the oracle list dets; every Some
outcome sends one BallCollided event (counted in the second component). -/
def ball_collision (balls : List BallState) (dets : List (Option Collision)) :
    List BallState × ℕ :=
  match balls with
  | [b] =>
      let r := dets.foldl
        (fun (acc : Vec2 × Vec2 × ℕ) d =>
          let pv := ball_collision_response acc.1 acc.2.1 d
          (pv.1, pv.2, acc.2.2 + (match d with | some _ => 1 | none => 0)))
        (b.pos, b.vel, 0)
      ([⟨r.1, r.2.1⟩], r.2.2)
  | _ => (balls, 0)

/-- fn velocity_movement for one entity:
transform.translation += velocity * time.delta_seconds(). -/
def velocity_movement (dt : ℚ) (p v : Vec2) : Vec2 :=
  ⟨p.x + v.x * dt, p.y + v.y * dt⟩

/-- Loop body of fn despawn_ball for one ball: x beyond 1920/2 + 10 despawns
the ball and queues BallDestroyed { player_scored: false }; x below
-(1920/2 + 10) despawns and queues player_scored: true; otherwise `continue`
keeps the ball. -/
def despawn_step (b : BallState) (acc : List BallState × List BallDestroyed) :
    List BallState × List BallDestroyed :=
  if b.pos.x > 1920 / 2 + 10 then (acc.1, ⟨false⟩ :: acc.2)
  else if b.pos.x < -(1920 / 2 + 10) then (acc.1, ⟨true⟩ :: acc.2)
  else (b :: acc.1, acc.2)

/-- fn despawn_ball: returns the surviving balls and the BallDestroyed events
sent, in query order. -/
def despawn_ball (balls : List BallState) : List BallState × List BallDestroyed :=
  balls.foldr despawn_step ([], [])

/-- Loop body of fn award_points for one BallDestroyed event: a player score
increments scoreboard.player and spawns a score.ogg AudioBundle (counted in
the second component); a computer score increments scoreboard.computer and
spawns no sound. -/
def award_step (acc : Scoreboard × ℕ) (e : BallDestroyed) : Scoreboard × ℕ :=
  if e.player_scored then (⟨acc.1.player + 1, acc.1.computer⟩, acc.2 + 1)
  else (⟨acc.1.player, acc.1.computer + 1⟩, acc.2)

/-- fn award_points: folds the BallDestroyed events into the scoreboard;
the ℕ result counts the score sounds spawned. -/
def award_points (events : List BallDestroyed) (sb : Scoreboard) : Scoreboard × ℕ :=
  events.foldl award_step (sb, 0)

/-- fn respawn_ball: one fresh ball per BallDestroyed event, at the default
SpriteBundle transform (the origin), with the freshly randomized velocity
(oracle input newVel standing for normalize(coin_flip, coin_flip) * BALL_SPEED). -/
def respawn_ball (events : List BallDestroyed) (newVel : Vec2) : List BallState :=
  events.map (fun _ => ⟨⟨0, 0⟩, newVel⟩)

/-- fn spawn_ball (Startup): one ball at the origin with the randomized
velocity (oracle input). -/
def spawn_ball (newVel : Vec2) : List BallState := [⟨⟨0, 0⟩, newVel⟩]

/-- The per-frame mutable game state the specified core touches. -/
structure GameState where
  balls : List BallState
  scoreboard : Scoreboard
  playerPos : Vec2
  playerVel : Vec2
  computerPos : Vec2
  computerVel : Vec2
deriving DecidableEq, Repr

/-- fn reset_on_r: when R is pressed, zero both counters, move every ball to
Vec3::ZERO with a fresh random velocity (oracle input newVel), and put the
computer and player paddles back at (∓PLAYER_START_POSITION, 0). -/
def reset_on_r (pressed : Bool) (newVel : Vec2) (s : GameState) : GameState :=
  if pressed then
    { s with
      scoreboard := ⟨0, 0⟩
      balls := s.balls.map (fun _ => ⟨⟨0, 0⟩, newVel⟩)
      computerPos := ⟨-PLAYER_START_POSITION, 0⟩
      playerPos := ⟨PLAYER_START_POSITION, 0⟩ }
  else s

/-- fn setup + fn spawn_ball (Startup schedule): paddles at
(±PLAYER_START_POSITION, 0) with default (zero) velocities, scoreboard
defaulted to zero, one ball at the origin. -/
def startup (v0 : Vec2) : GameState :=
  { balls := spawn_ball v0
    scoreboard := ⟨0, 0⟩
    playerPos := ⟨PLAYER_START_POSITION, 0⟩
    playerVel := ⟨0, 0⟩
    computerPos := ⟨-PLAYER_START_POSITION, 0⟩
    computerVel := ⟨0, 0⟩ }

/-- External inputs consumed by one Update-schedule run: the frame time step,
the pressed states of W, S and R, the oracle velocity a reset would give the
ball, the oracle collide() outcomes for the ball against the other colliders,
and the oracle velocity a respawn would give the new ball. -/
structure FrameInput where
  dt : ℚ
  keyW : Bool
  keyS : Bool
  keyR : Bool
  resetVel : Vec2
  dets : List (Option Collision)
  spawnVel : Vec2
deriving DecidableEq, Repr

/-- fn velocity_movement applied to the ball list. -/
def integrate_balls (dt : ℚ) (balls : List BallState) : List BallState :=
  balls.map (fun b => ⟨velocity_movement dt b.pos b.vel, b.vel⟩)

/-- One run of the Update schedule, in the order fixed by main():
reset_on_r (unordered in bevy; a no-op unless R is pressed), the two movement
controllers and ball_collision (all before velocity_movement, mutually
write-disjoint), velocity_movement, then the chained despawn_ball /
award_points and respawn_ball; despawn and spawn commands are applied at the
end of the schedule, so the ball list is rebuilt last. -/
def frame (i : FrameInput) (s : GameState) : GameState :=
  let s0 := reset_on_r i.keyR i.resetVel s
  let pVel := player_movement_control i.keyW i.keyS
  let cVel := computer_movement_system s0.balls s0.computerPos s0.computerVel
  let balls1 := (ball_collision s0.balls i.dets).1
  let balls2 := integrate_balls i.dt balls1
  let d := despawn_ball balls2
  { balls := d.1 ++ respawn_ball d.2 i.spawnVel
    scoreboard := (award_points d.2 s0.scoreboard).1
    playerPos := velocity_movement i.dt s0.playerPos pVel
    playerVel := pVel
    computerPos := velocity_movement i.dt s0.computerPos cVel
    computerVel := cVel }

/-- Vec2::normalize (external library math, over ℝ since it divides by the
Euclidean length): v / |v|. -/
noncomputable def vec2_normalize (v : ℝ × ℝ) : ℝ × ℝ :=
  (v.1 / Real.sqrt (v.1 ^ 2 + v.2 ^ 2), v.2 / Real.sqrt (v.1 ^ 2 + v.2 ^ 2))

/-- The velocity the code gives a freshly spawned / reset ball:
Vec2::new(coin_flip(), coin_flip()).normalize() * BALL_SPEED, with the two
sampled u32 values as explicit inputs.  Over ℝ because the normalization
divides by √2. -/
noncomputable def ball_spawn_velocity (n1 n2 : ℕ) : ℝ × ℝ :=
  let d := vec2_normalize (((coin_flip n1 : ℚ) : ℝ), ((coin_flip n2 : ℚ) : ℝ))
  (d.1 * ((BALL_SPEED : ℚ) : ℝ), d.2 * ((BALL_SPEED : ℚ) : ℝ))

/-- Euclidean magnitude of a velocity vector. -/
noncomputable def vecNorm (v : ℝ × ℝ) : ℝ := Real.sqrt (v.1 ^ 2 + v.2 ^ 2)

theorem coin_flip_sq (n : ℕ) : ((coin_flip n : ℚ) : ℝ) ^ 2 = 1 := by
  unfold coin_flip
  split <;> norm_num

/-- The randomized spawn velocity always has magnitude exactly BALL_SPEED. -/
theorem vecNorm_ball_spawn (n1 n2 : ℕ) :
    vecNorm (ball_spawn_velocity n1 n2) = ((BALL_SPEED : ℚ) : ℝ) := by
  have h1 := coin_flip_sq n1
  have h2 := coin_flip_sq n2
  set a := ((coin_flip n1 : ℚ) : ℝ) with ha
  set b := ((coin_flip n2 : ℚ) : ℝ) with hb
  have hs : a ^ 2 + b ^ 2 = 2 := by rw [h1, h2]; norm_num
  have hpos : (0 : ℝ) < Real.sqrt 2 := Real.sqrt_pos.mpr (by norm_num)
  have hne : Real.sqrt 2 ≠ 0 := ne_of_gt hpos
  have hss : Real.sqrt 2 ^ 2 = 2 := Real.sq_sqrt (by norm_num)
  have hK : ((BALL_SPEED : ℚ) : ℝ) = 700 := by norm_num [BALL_SPEED]
  unfold vecNorm ball_spawn_velocity vec2_normalize
  simp only [hs]
  rw [hK]
  have hsum : (a / Real.sqrt 2 * 700) ^ 2 + (b / Real.sqrt 2 * 700) ^ 2
      = (a ^ 2 + b ^ 2) / Real.sqrt 2 ^ 2 * 700 ^ 2 := by ring
  rw [hsum, hs, hss]
  rw [show (2 : ℝ) / 2 * 700 ^ 2 = 700 ^ 2 by norm_num]
  exact Real.sqrt_sq (by norm_num)

/-- Each despawn_step either keeps the ball or queues one event. -/
theorem despawn_step_length (b : BallState) (acc : List BallState × List BallDestroyed) :
    (despawn_step b acc).1.length + (despawn_step b acc).2.length
      = acc.1.length + acc.2.length + 1 := by
  unfold despawn_step
  split_ifs <;> simp only [List.length_cons] <;> omega

/-- Every ball either survives despawn_ball or contributes one event. -/
theorem despawn_ball_length (balls : List BallState) :
    (despawn_ball balls).1.length + (despawn_ball balls).2.length = balls.length := by
  induction balls with
  | nil => rfl
  | cons b t ih =>
      simp only [despawn_ball, List.foldr_cons, List.length_cons] at ih ⊢
      rw [despawn_step_length]
      omega

/-- respawn_ball spawns exactly one ball per BallDestroyed event. -/
theorem respawn_ball_length (events : List BallDestroyed) (v : Vec2) :
    (respawn_ball events v).length = events.length := by
  simp [respawn_ball]

/-- ball_collision never despawns or spawns balls. -/
theorem ball_collision_length (balls : List BallState) (dets : List (Option Collision)) :
    (ball_collision balls dets).1.length = balls.length := by
  rcases balls with _ | ⟨b, _ | ⟨c, t⟩⟩ <;> rfl

/-- integrate_balls moves balls without changing their number. -/
theorem integrate_balls_length (dt : ℚ) (balls : List BallState) :
    (integrate_balls dt balls).length = balls.length := by
  simp [integrate_balls]

/-- reset_on_r repositions balls without changing their number. -/
theorem reset_on_r_length (pressed : Bool) (v : Vec2) (s : GameState) :
    (reset_on_r pressed v s).balls.length = s.balls.length := by
  unfold reset_on_r
  split <;> simp

/-- A single frame keeps the number of live balls at one. -/
theorem frame_balls_length (i : FrameInput) (s : GameState) (h : s.balls.length = 1) :
    (frame i s).balls.length = 1 := by
  have h0 : (reset_on_r i.keyR i.resetVel s).balls.length = 1 := by
    rw [reset_on_r_length]; exact h
  have h1 := ball_collision_length (reset_on_r i.keyR i.resetVel s).balls i.dets
  have h2 := integrate_balls_length i.dt (ball_collision (reset_on_r i.keyR i.resetVel s).balls i.dets).1
  have h3 := despawn_ball_length (integrate_balls i.dt (ball_collision (reset_on_r i.keyR i.resetVel s).balls i.dets).1)
  have h4 := respawn_ball_length (despawn_ball (integrate_balls i.dt (ball_collision (reset_on_r i.keyR i.resetVel s).balls i.dets).1)).2 i.spawnVel
  simp only [frame, List.length_append]
  omega

/-- award_points only ever increments the two counters. -/
theorem award_points_mono (events : List BallDestroyed) (init : Scoreboard × ℕ) :
    init.1.player ≤ (events.foldl award_step init).1.player ∧
    init.1.computer ≤ (events.foldl award_step init).1.computer := by
  induction events generalizing init with
  | nil => exact ⟨le_refl _, le_refl _⟩
  | cons e t ih =>
      simp only [List.foldl_cons]
      have step : init.1.player ≤ (award_step init e).1.player ∧
          init.1.computer ≤ (award_step init e).1.computer := by
        unfold award_step
        split <;> simp
      exact ⟨step.1.trans (ih (award_step init e)).1,
             step.2.trans (ih (award_step init e)).2⟩

/-- When R is not pressed, a frame can only grow the two counters. -/
theorem frame_scoreboard_mono (i : FrameInput) (s : GameState) (h : i.keyR = false) :
    s.scoreboard.player ≤ (frame i s).scoreboard.player ∧
    s.scoreboard.computer ≤ (frame i s).scoreboard.computer := by
  have h0 : (reset_on_r i.keyR i.resetVel s).scoreboard = s.scoreboard := by
    rw [h]; rfl
  simp only [frame, award_points, h0]
  exact award_points_mono _ (s.scoreboard, 0)

/-- Claim C1: scoring sign convention — each frame, a live ball with x above
1920/2 + 10 (= 970) is despawned and the computer counter is incremented by 1;
one with x below -(1920/2 + 10) is despawned and the player counter is
incremented by 1; one with x in between survives and neither counter changes. -/
theorem scoring_sign_convention (b : BallState) (sb : Scoreboard) :
    (b.pos.x > 1920 / 2 + 10 →
      despawn_ball [b] = ([], [⟨false⟩]) ∧
      (award_points [⟨false⟩] sb).1 = ⟨sb.player, sb.computer + 1⟩) ∧
    (b.pos.x < -(1920 / 2 + 10) →
      despawn_ball [b] = ([], [⟨true⟩]) ∧
      (award_points [⟨true⟩] sb).1 = ⟨sb.player + 1, sb.computer⟩) ∧
    (-(1920 / 2 + 10) ≤ b.pos.x → b.pos.x ≤ 1920 / 2 + 10 →
      despawn_ball [b] = ([b], []) ∧ (award_points [] sb).1 = sb) := by
  refine ⟨fun h => ⟨?_, ?_⟩, fun h => ⟨?_, ?_⟩, fun h1 h2 => ⟨?_, ?_⟩⟩
  · simp [despawn_ball, despawn_step, h]
  · simp [award_points, award_step]
  · have hn : ¬ b.pos.x > 1920 / 2 + 10 := by push_neg; linarith
    simp only [despawn_ball, List.foldr_cons, List.foldr_nil, despawn_step, if_neg hn, if_pos h]
  · simp [award_points, award_step]
  · have hn : ¬ b.pos.x > 1920 / 2 + 10 := not_lt.mpr h2
    have hn2 : ¬ b.pos.x < -(1920 / 2 + 10) := not_lt.mpr h1
    simp only [despawn_ball, List.foldr_cons, List.foldr_nil, despawn_step, if_neg hn, if_neg hn2]
  · rfl

/-- Witness for scoring_sign_convention at a concrete out-of-bounds ball. -/
theorem scoring_sign_convention_witness :
    despawn_ball [⟨⟨971, 0⟩, ⟨0, 0⟩⟩] = ([], [⟨false⟩]) ∧
    (award_points [⟨false⟩] ⟨3, 5⟩).1 = ⟨3, 5 + 1⟩ :=
  (scoring_sign_convention ⟨⟨971, 0⟩, ⟨0, 0⟩⟩ ⟨3, 5⟩).1 (by norm_num)

/-- Claim C2: collision response — a detected Left/Right collision negates
velocity.x, a Top/Bottom collision negates velocity.y, Inside is a no-op, and
in all cases (including no detection) the ball's position is untouched. -/
theorem collision_response_policy (p v : Vec2) :
    ball_collision_response p v (some Collision.Left) = (p, ⟨-v.x, v.y⟩) ∧
    ball_collision_response p v (some Collision.Right) = (p, ⟨-v.x, v.y⟩) ∧
    ball_collision_response p v (some Collision.Top) = (p, ⟨v.x, -v.y⟩) ∧
    ball_collision_response p v (some Collision.Bottom) = (p, ⟨v.x, -v.y⟩) ∧
    ball_collision_response p v (some Collision.Inside) = (p, v) ∧
    ∀ c : Option Collision, (ball_collision_response p v c).1 = p := by
  refine ⟨?_, ?_, ?_, ?_, rfl, ?_⟩
  · simp only [ball_collision_response, mul_neg_one]
  · simp only [ball_collision_response, mul_neg_one]
  · simp only [ball_collision_response, mul_neg_one]
  · simp only [ball_collision_response, mul_neg_one]
  · intro c
    rcases c with _ | c
    · rfl
    · cases c <;> rfl

/-- Claim C9: player controller key mapping — W gives +PLAYER_SPEED (also when
S is held: W wins), S alone gives -PLAYER_SPEED, neither gives 0, and
velocity.x is always 0. -/
theorem player_key_mapping :
    (∀ s, player_movement_control true s = ⟨0, PLAYER_SPEED⟩) ∧
    player_movement_control false true = ⟨0, -PLAYER_SPEED⟩ ∧
    player_movement_control false false = ⟨0, 0⟩ ∧
    ∀ w s, (player_movement_control w s).x = 0 := by
  refine ⟨fun s => ?_, ?_, ?_, fun w s => ?_⟩
  · simp [player_movement_control]
  · simp [player_movement_control]
  · simp [player_movement_control]
  · rcases w <;> rcases s <;> simp [player_movement_control]

/-- Claim C4 (code bug): the claim says the computer stops (velocity.y = 0)
whenever the ball is on the player's half and its own y is inside the
dead-band, and otherwise drifts toward 0 at half speed.  The code's dead-band
test (50.0..-50.0).contains(&y) is an empty range, so the stop branch is dead:
at comp.y = 20 (inside the claimed dead-band) the code drifts at half speed,
and at comp.y = 0 it leaves the velocity unchanged rather than writing 0. -/
theorem computer_dead_band_code_eval :
    computer_movement_control ⟨100, 0⟩ ⟨-PLAYER_START_POSITION, 20⟩ ⟨0, 0⟩
      = ⟨0, -(COMPUTER_SPEED / 2)⟩ ∧
    computer_movement_control ⟨100, 0⟩ ⟨-PLAYER_START_POSITION, 0⟩ ⟨0, 123⟩ = ⟨0, 123⟩ ∧
    ∀ y : ℚ, ¬(50 ≤ y ∧ y < -50) := by
  refine ⟨?_, ?_, fun y h => absurd (lt_of_le_of_lt h.1 h.2) (by norm_num)⟩
  · norm_num [computer_movement_control, COMPUTER_SPEED]
  · norm_num [computer_movement_control]

/-- Claim C5 counterexample: with the ball at x = -300 the claim (full speed
once the ball has crossed 27.5% of the half-court width, i.e. beyond -264)
predicts velocity.y = COMPUTER_SPEED, but the code's threshold is
-(1920 * 0.275) = -528, so it yields 0.7 * COMPUTER_SPEED = 350 instead. -/
theorem computer_tracking_counterexample :
    computer_movement_control ⟨-300, 100⟩ ⟨-PLAYER_START_POSITION, 0⟩ ⟨0, 0⟩ = ⟨0, 350⟩ ∧
    (350 : ℚ) ≠ COMPUTER_SPEED := by
  constructor
  · norm_num [computer_movement_control, COMPUTER_SPEED]
  · norm_num [COMPUTER_SPEED]

/-- Claim C5 (amended): with the ball on the computer's half (x ≤ 0) the
computer tracks the ball's y at speed COMPUTER_SPEED once the ball has crossed
27.5% of the FULL court width toward the computer (x ≤ -(1920 * 0.275) = -528)
and at 0.7 * COMPUTER_SPEED otherwise, moving toward the ball (positive when
the ball is above, negative when below); when ball.y equals the paddle's y the
velocity is left unchanged; velocity.x is never written. -/
theorem computer_tracking_speed (ball comp v : Vec2) (hx : ball.x ≤ 0) :
    (ball.y > comp.y → computer_movement_control ball comp v
        = ⟨v.x, if ball.x > -(1920 * (275 / 1000)) then COMPUTER_SPEED * (7 / 10) else COMPUTER_SPEED⟩) ∧
    (ball.y < comp.y → computer_movement_control ball comp v
        = ⟨v.x, -(if ball.x > -(1920 * (275 / 1000)) then COMPUTER_SPEED * (7 / 10) else COMPUTER_SPEED)⟩) ∧
    (ball.y = comp.y → computer_movement_control ball comp v = v) := by
  have hng : ¬ball.x > 0 := not_lt.mpr hx
  refine ⟨fun h => ?_, fun h => ?_, fun h => ?_⟩
  · simp only [computer_movement_control, if_neg hng]
    rw [if_neg (lt_asymm h), if_pos h]
  · simp only [computer_movement_control, if_neg hng]
    rw [if_pos h]
  · simp only [computer_movement_control, if_neg hng]
    rw [if_neg (by rw [h]; exact lt_irrefl _), if_neg (by rw [h]; exact lt_irrefl _)]

/-- Witness for computer_tracking_speed: the spec's concrete scenario — ball
at (-900, 100), computer paddle at y = 0 — yields velocity.y = +COMPUTER_SPEED. -/
theorem computer_tracking_speed_witness :
    computer_movement_control ⟨-900, 100⟩ ⟨-PLAYER_START_POSITION, 0⟩ ⟨0, 0⟩
      = ⟨0, COMPUTER_SPEED⟩ := by
  have h := (computer_tracking_speed ⟨-900, 100⟩ ⟨-PLAYER_START_POSITION, 0⟩ ⟨0, 0⟩
    (by norm_num)).1 (by norm_num [PLAYER_START_POSITION])
  rw [h, if_neg (by norm_num)]

/-- Claim C10: when the single-ball query yields zero or several balls, the
computer controller and the collision system both return early: no velocity is
written and no collision event is emitted. -/
theorem missing_ball_no_op (balls : List BallState) (h : balls.length ≠ 1)
    (comp v : Vec2) (dets : List (Option Collision)) :
    computer_movement_system balls comp v = v ∧ ball_collision balls dets = (balls, 0) := by
  rcases balls with _ | ⟨b, _ | ⟨c, t⟩⟩
  · exact ⟨rfl, rfl⟩
  · simp at h
  · exact ⟨rfl, rfl⟩

/-- Witness for missing_ball_no_op on the zero-ball frame. -/
theorem missing_ball_no_op_witness :
    computer_movement_system [] ⟨-864, 3⟩ ⟨0, 7⟩ = ⟨0, 7⟩ ∧
    ball_collision [] [some Collision.Left] = ([], 0) :=
  missing_ball_no_op [] (by decide) ⟨-864, 3⟩ ⟨0, 7⟩ [some Collision.Left]

/-- Claim C3: at-most-one-ball invariant — from the startup state (which
spawns exactly one ball), any sequence of frames leaves exactly one live ball
at every frame boundary; within a frame each destruction queues one
BallDestroyed event and respawn_ball spawns exactly one ball per event. -/
theorem at_most_one_ball (v0 : Vec2) (inputs : List FrameInput) :
    (inputs.foldl (fun t i => frame i t) (startup v0)).balls.length = 1 ∧
    ∀ (events : List BallDestroyed) (v : Vec2),
      (respawn_ball events v).length = events.length := by
  constructor
  · have key : ∀ (l : List FrameInput) (s : GameState), s.balls.length = 1 →
        (l.foldl (fun t i => frame i t) s).balls.length = 1 := by
      intro l
      induction l with
      | nil => exact fun s hs => hs
      | cons i t ih => exact fun s hs => ih (frame i s) (frame_balls_length i s hs)
    exact key inputs (startup v0) rfl
  · exact fun events v => respawn_ball_length events v

/-- Claim C6 (amended): a ball at exactly x = 1920/2 + 10 (= 970) whose
x-velocity after collision resolution is positive is destroyed during the next
frame (integration pushes its x strictly past 970, the strict despawn test),
the computer counter is incremented, and exactly one new ball appears at the
origin with the freshly randomized velocity, whose magnitude is BALL_SPEED.
For arbitrary velocity the original claim fails: the despawn test is strict,
so a ball at exactly 970 moving inward survives with counters unchanged. -/
theorem boundary_scenario (s : GameState) (b : BallState) (i : FrameInput)
    (hb : s.balls = [b]) (hx : b.pos.x = 1920 / 2 + 10) (hv : b.vel.x > 0)
    (hdt : i.dt > 0) (hdets : i.dets = []) (hR : i.keyR = false) :
    (frame i s).balls = [⟨⟨0, 0⟩, i.spawnVel⟩] ∧
    (frame i s).scoreboard = ⟨s.scoreboard.player, s.scoreboard.computer + 1⟩ ∧
    ∀ n1 n2 : ℕ, vecNorm (ball_spawn_velocity n1 n2) = ((BALL_SPEED : ℚ) : ℝ) := by
  have hs0 : reset_on_r i.keyR i.resetVel s = s := by
    rw [hR]
    rfl
  have hcond : (velocity_movement i.dt b.pos b.vel).x > 1920 / 2 + 10 := by
    simp only [velocity_movement]
    rw [hx]
    have := mul_pos hv hdt
    linarith
  have hdesp : despawn_ball (integrate_balls i.dt (ball_collision s.balls i.dets).1)
      = ([], [⟨false⟩]) := by
    rw [hb, hdets]
    show despawn_ball (integrate_balls i.dt [b]) = ([], [⟨false⟩])
    simp only [integrate_balls, List.map_cons, List.map_nil, despawn_ball,
      List.foldr_cons, List.foldr_nil, despawn_step, if_pos hcond]
  refine ⟨?_, ?_, fun n1 n2 => vecNorm_ball_spawn n1 n2⟩
  · simp only [frame, hs0, hdesp, respawn_ball, List.map_cons, List.map_nil,
      List.nil_append]
  · simp only [frame, hs0, hdesp]
    simp [award_points, award_step]

/-- Witness for boundary_scenario: a concrete outbound ball at x = 970. -/
theorem boundary_scenario_witness :
    (frame ⟨1 / 60, false, false, false, ⟨0, 0⟩, [], ⟨9, 9⟩⟩
        ⟨[⟨⟨1920 / 2 + 10, 5⟩, ⟨495, 0⟩⟩], ⟨2, 7⟩, ⟨864, 0⟩, ⟨0, 0⟩, ⟨-864, 0⟩, ⟨0, 0⟩⟩).balls
      = [⟨⟨0, 0⟩, ⟨9, 9⟩⟩] ∧
    (frame ⟨1 / 60, false, false, false, ⟨0, 0⟩, [], ⟨9, 9⟩⟩
        ⟨[⟨⟨1920 / 2 + 10, 5⟩, ⟨495, 0⟩⟩], ⟨2, 7⟩, ⟨864, 0⟩, ⟨0, 0⟩, ⟨-864, 0⟩, ⟨0, 0⟩⟩).scoreboard
      = ⟨2, 7 + 1⟩ := by
  have h := boundary_scenario
    ⟨[⟨⟨1920 / 2 + 10, 5⟩, ⟨495, 0⟩⟩], ⟨2, 7⟩, ⟨864, 0⟩, ⟨0, 0⟩, ⟨-864, 0⟩, ⟨0, 0⟩⟩
    ⟨⟨1920 / 2 + 10, 5⟩, ⟨495, 0⟩⟩
    ⟨1 / 60, false, false, false, ⟨0, 0⟩, [], ⟨9, 9⟩⟩
    rfl rfl (by norm_num) (by norm_num) rfl rfl
  exact ⟨h.1, h.2.1⟩

/-- Claim C6 counterexample: a ball at exactly x = 1920/2 + 10 = 970 (the
claim's input) moving inward with velocity (-495, 0) is NOT destroyed on the
next frame — it survives at x = 3847/4 and neither counter changes — because
the despawn test x > 970 is strict and integration runs before it. -/
theorem boundary_scenario_counterexample :
    (frame ⟨1 / 60, false, false, false, ⟨0, 0⟩, [], ⟨9, 9⟩⟩
        ⟨[⟨⟨1920 / 2 + 10, 0⟩, ⟨-495, 0⟩⟩], ⟨2, 7⟩, ⟨864, 0⟩, ⟨0, 0⟩, ⟨-864, 0⟩, ⟨0, 0⟩⟩).balls
      = [⟨⟨3847 / 4, 0⟩, ⟨-495, 0⟩⟩] ∧
    (frame ⟨1 / 60, false, false, false, ⟨0, 0⟩, [], ⟨9, 9⟩⟩
        ⟨[⟨⟨1920 / 2 + 10, 0⟩, ⟨-495, 0⟩⟩], ⟨2, 7⟩, ⟨864, 0⟩, ⟨0, 0⟩, ⟨-864, 0⟩, ⟨0, 0⟩⟩).scoreboard
      = ⟨2, 7⟩ := by
  have hmove : integrate_balls (1 / 60) [⟨⟨1920 / 2 + 10, 0⟩, ⟨-495, 0⟩⟩]
      = [⟨⟨3847 / 4, 0⟩, ⟨-495, 0⟩⟩] := by
    simp only [integrate_balls, List.map_cons, List.map_nil, velocity_movement]
    norm_num [Vec2.mk.injEq, BallState.mk.injEq]
  have hdesp : despawn_ball [(⟨⟨3847 / 4, 0⟩, ⟨-495, 0⟩⟩ : BallState)]
      = ([⟨⟨3847 / 4, 0⟩, ⟨-495, 0⟩⟩], []) := by
    simp only [despawn_ball, List.foldr_cons, List.foldr_nil, despawn_step]
    rw [if_neg (by norm_num), if_neg (by norm_num)]
  constructor
  · show (despawn_ball (integrate_balls (1 / 60) [⟨⟨1920 / 2 + 10, 0⟩, ⟨-495, 0⟩⟩])).1
        ++ respawn_ball (despawn_ball (integrate_balls (1 / 60)
            [⟨⟨1920 / 2 + 10, 0⟩, ⟨-495, 0⟩⟩])).2 ⟨9, 9⟩
      = [⟨⟨3847 / 4, 0⟩, ⟨-495, 0⟩⟩]
    rw [hmove, hdesp]
    rfl
  · show (award_points (despawn_ball (integrate_balls (1 / 60)
        [⟨⟨1920 / 2 + 10, 0⟩, ⟨-495, 0⟩⟩])).2 ⟨2, 7⟩).1 = ⟨2, 7⟩
    rw [hmove, hdesp]
    rfl

/-- Claim C7: on exit past either side boundary: the ball is destroyed, one
BallDestroyed event carrying the scoring side is emitted, the matching counter
is incremented, a score sound plays iff the player scored (never for a
computer score), and exactly one fresh ball is spawned at the origin with the
randomized velocity, whose magnitude is BALL_SPEED. -/
theorem on_exit_sequence (b : BallState) (sb : Scoreboard) (sv : Vec2)
    (h : b.pos.x > 1920 / 2 + 10 ∨ b.pos.x < -(1920 / 2 + 10)) :
    (despawn_ball [b]).1 = [] ∧
    (despawn_ball [b]).2 = [⟨decide (b.pos.x < -(1920 / 2 + 10))⟩] ∧
    (award_points (despawn_ball [b]).2 sb).1
      = (if b.pos.x < -(1920 / 2 + 10) then ⟨sb.player + 1, sb.computer⟩
         else ⟨sb.player, sb.computer + 1⟩) ∧
    ((award_points (despawn_ball [b]).2 sb).2 = 1 ↔ b.pos.x < -(1920 / 2 + 10)) ∧
    respawn_ball (despawn_ball [b]).2 sv = [⟨⟨0, 0⟩, sv⟩] ∧
    ∀ n1 n2 : ℕ, vecNorm (ball_spawn_velocity n1 n2) = ((BALL_SPEED : ℚ) : ℝ) := by
  rcases h with h | h
  · have hnot : ¬b.pos.x < -(1920 / 2 + 10) := by push_neg; linarith
    have hd : despawn_ball [b] = ([], [⟨false⟩]) := by
      simp only [despawn_ball, List.foldr_cons, List.foldr_nil, despawn_step, if_pos h]
    rw [hd]
    refine ⟨rfl, ?_, ?_, ?_, rfl, fun n1 n2 => vecNorm_ball_spawn n1 n2⟩
    · rw [decide_eq_false hnot]
    · rw [if_neg hnot]
      simp [award_points, award_step]
    · exact iff_of_false (by simp [award_points, award_step]) hnot
  · have hn : ¬b.pos.x > 1920 / 2 + 10 := by push_neg; linarith
    have hd : despawn_ball [b] = ([], [⟨true⟩]) := by
      simp only [despawn_ball, List.foldr_cons, List.foldr_nil, despawn_step,
        if_neg hn, if_pos h]
    rw [hd]
    refine ⟨rfl, ?_, ?_, ?_, rfl, fun n1 n2 => vecNorm_ball_spawn n1 n2⟩
    · rw [decide_eq_true h]
    · rw [if_pos h]
      simp [award_points, award_step]
    · exact iff_of_true (by simp [award_points, award_step]) h

/-- Witness for on_exit_sequence: a ball out at x = -971 credits the player,
plays the score sound, and is replaced by one fresh ball at the origin. -/
theorem on_exit_sequence_witness :
    (despawn_ball [⟨⟨-971, 2⟩, ⟨0, 0⟩⟩]).1 = [] ∧
    (despawn_ball [⟨⟨-971, 2⟩, ⟨0, 0⟩⟩]).2 = [⟨true⟩] ∧
    (award_points (despawn_ball [⟨⟨-971, 2⟩, ⟨0, 0⟩⟩]).2 ⟨4, 4⟩).1 = ⟨4 + 1, 4⟩ ∧
    (award_points (despawn_ball [⟨⟨-971, 2⟩, ⟨0, 0⟩⟩]).2 ⟨4, 4⟩).2 = 1 ∧
    respawn_ball (despawn_ball [⟨⟨-971, 2⟩, ⟨0, 0⟩⟩]).2 ⟨3, 3⟩ = [⟨⟨0, 0⟩, ⟨3, 3⟩⟩] := by
  have h := on_exit_sequence ⟨⟨-971, 2⟩, ⟨0, 0⟩⟩ ⟨4, 4⟩ ⟨3, 3⟩ (Or.inr (by norm_num))
  refine ⟨h.1, ?_, ?_, ?_, h.2.2.2.2.1⟩
  · rw [h.2.1]
    norm_num
  · rw [h.2.2.1, if_pos (by norm_num : (-971 : ℚ) < -(1920 / 2 + 10))]
  · exact h.2.2.2.1.mpr (by norm_num)

/-- Claim C8: absent the reset key both counters are non-decreasing over any
sequence of frames; pressing R zeroes both counters, repositions every ball to
the origin with the freshly randomized velocity (whose magnitude is
BALL_SPEED), and puts the paddles back at (±PLAYER_START_POSITION, 0). -/
theorem score_monotonicity_and_reset :
    (∀ (s : GameState) (inputs : List FrameInput),
      (∀ i ∈ inputs, i.keyR = false) →
      s.scoreboard.player ≤ (inputs.foldl (fun t i => frame i t) s).scoreboard.player ∧
      s.scoreboard.computer ≤ (inputs.foldl (fun t i => frame i t) s).scoreboard.computer) ∧
    (∀ (v : Vec2) (s : GameState),
      (reset_on_r true v s).scoreboard = ⟨0, 0⟩ ∧
      (reset_on_r true v s).balls = s.balls.map (fun _ => ⟨⟨0, 0⟩, v⟩) ∧
      (reset_on_r true v s).playerPos = ⟨PLAYER_START_POSITION, 0⟩ ∧
      (reset_on_r true v s).computerPos = ⟨-PLAYER_START_POSITION, 0⟩) ∧
    ∀ n1 n2 : ℕ, vecNorm (ball_spawn_velocity n1 n2) = ((BALL_SPEED : ℚ) : ℝ) := by
  refine ⟨?_, fun v s => ⟨rfl, rfl, rfl, rfl⟩, fun n1 n2 => vecNorm_ball_spawn n1 n2⟩
  intro s inputs
  induction inputs generalizing s with
  | nil => exact fun _ => ⟨le_refl _, le_refl _⟩
  | cons i t ih =>
      intro hR
      have hi : i.keyR = false := hR i (List.mem_cons_self i t)
      have h1 := frame_scoreboard_mono i s hi
      have h2 := ih (frame i s) (fun j hj => hR j (List.mem_cons_of_mem i hj))
      exact ⟨h1.1.trans h2.1, h1.2.trans h2.2⟩

/-- Witness for score_monotonicity_and_reset: one reset-free frame keeps the
counters at least where they were, and a concrete reset zeroes them. -/
theorem score_monotonicity_and_reset_witness :
    (2 : ℕ) ≤ (([⟨1 / 60, true, false, false, ⟨0, 0⟩, [], ⟨2, 2⟩⟩] : List FrameInput).foldl
        (fun t i => frame i t)
        ⟨[⟨⟨0, 0⟩, ⟨1, 1⟩⟩], ⟨2, 7⟩, ⟨864, 0⟩, ⟨0, 0⟩, ⟨-864, 0⟩, ⟨0, 0⟩⟩).scoreboard.player ∧
    (reset_on_r true ⟨1, 1⟩
        ⟨[⟨⟨5, 5⟩, ⟨1, 1⟩⟩], ⟨2, 7⟩, ⟨864, 2⟩, ⟨0, 0⟩, ⟨-864, 3⟩, ⟨0, 0⟩⟩).scoreboard
      = ⟨0, 0⟩ := by
  constructor
  · exact (score_monotonicity_and_reset.1
      ⟨[⟨⟨0, 0⟩, ⟨1, 1⟩⟩], ⟨2, 7⟩, ⟨864, 0⟩, ⟨0, 0⟩, ⟨-864, 0⟩, ⟨0, 0⟩⟩
      [⟨1 / 60, true, false, false, ⟨0, 0⟩, [], ⟨2, 2⟩⟩]
      (by intro j hj; rw [List.mem_singleton] at hj; subst hj; rfl)).1
  · exact (score_monotonicity_and_reset.2.1 ⟨1, 1⟩
      ⟨[⟨⟨5, 5⟩, ⟨1, 1⟩⟩], ⟨2, 7⟩, ⟨864, 2⟩, ⟨0, 0⟩, ⟨-864, 3⟩, ⟨0, 0⟩⟩).1
